import Mathlib

/-!
Verification of the Tanker Rust SDK asynchronous adapter layer
(`src/ctanker/cfuture.rs`, `src/ctanker/cstream.rs`, `src/error.rs`).

The development shallowly embeds the operation bridge (`CFuture`), the
stream multiplexer (`TankerStream::poll_read`), the bootstrap driver
(`process_stream_until` / `decrypt_stream`), the stream drop handler, and
the error-code conversions, and proves the spec's claims about them.
-/

namespace TankerSpec

/-- Error codes of the engine, from `src/error.rs` (`enum ErrorCode`,
discriminants 0..14 plus the `num_enum` default `UnknownError`). -/
inductive ErrorCode where
  | NoError
  | InvalidArgument
  | InternalError
  | NetworkError
  | PreconditionFailed
  | OperationCanceled
  | DecryptionFailed
  | GroupTooBig
  | InvalidVerification
  | TooManyAttempts
  | ExpiredVerification
  | IoError
  | DeviceRevoked
  | Conflict
  | UpgradeRequired
  | UnknownError
  deriving DecidableEq, Repr

/-- Conversion of a raw `u32` engine code into `ErrorCode`, as generated by
`num_enum::FromPrimitive` with `#[num_enum(default)] UnknownError`:
discriminants 0..14 map to their named variants, everything else to
`UnknownError`. Modelled on `Nat`; a `u32` argument is a `Nat` below `2^32`. -/
def errorCodeFromU32 (n : Nat) : ErrorCode :=
  match n with
  | 0 => .NoError
  | 1 => .InvalidArgument
  | 2 => .InternalError
  | 3 => .NetworkError
  | 4 => .PreconditionFailed
  | 5 => .OperationCanceled
  | 6 => .DecryptionFailed
  | 7 => .GroupTooBig
  | 8 => .InvalidVerification
  | 9 => .TooManyAttempts
  | 10 => .ExpiredVerification
  | 11 => .IoError
  | 12 => .DeviceRevoked
  | 13 => .Conflict
  | 14 => .UpgradeRequired
  | _ => .UnknownError

/-- The `futures::io::ErrorKind` values used by the `From<Error>` conversion
in `src/error.rs`. -/
inductive ErrorKind where
  | Interrupted
  | InvalidInput
  | PermissionDenied
  | ConnectionReset
  | BrokenPipe
  | Other
  deriving DecidableEq, Repr

/-- The `ErrorKind` chosen for a given `ErrorCode` by
`impl From<Error> for futures::io::Error` (`src/error.rs`, lines 95-116). -/
def kindOfCode : ErrorCode → ErrorKind
  | .OperationCanceled => .Interrupted
  | .GroupTooBig | .InvalidArgument => .InvalidInput
  | .ExpiredVerification | .DeviceRevoked | .InvalidVerification => .PermissionDenied
  | .NetworkError => .ConnectionReset
  | .IoError => .BrokenPipe
  | .NoError | .InternalError | .PreconditionFailed | .DecryptionFailed
  | .TooManyAttempts | .Conflict | .UpgradeRequired | .UnknownError => .Other

/-- Error values flowing through the adapter. A `tankerErr` node embeds
`tankersdk::Error` (`code`, `msg`, optional chained `source`); an `ioError`
node embeds `futures::io::Error` (an `ErrorKind` plus an optional inner
error). The two wrap each other through the two `From` impls of
`src/error.rs`. -/
inductive ErrTree where
  | tankerErr (code : ErrorCode) (msg : String) (source : Option ErrTree)
  | ioError (kind : ErrorKind) (inner : Option ErrTree)

/-- Top-level code a caller observes on a `tankersdk::Error`
(`Error::code`). An `ioError` node is not a `tankersdk::Error`; callers
holding one observe no `ErrorCode` (modelled as `none`). -/
def topCode : ErrTree → Option ErrorCode
  | .tankerErr c _ _ => some c
  | .ioError _ _ => none

/-- The `impl From<Error> for futures::io::Error` conversion
(`src/error.rs`, lines 95-116): `futures::io::Error::new(kind, e)` keeps the
whole original error as the io error's inner value. -/
def errorToIo (e : ErrTree) : ErrTree :=
  match e with
  | .tankerErr c m s => .ioError (kindOfCode c) (some (.tankerErr c m s))
  | other => .ioError .Other (some other)

/-- The `impl From<futures::io::Error> for Error` conversion
(`src/error.rs`, lines 118-126): `Error::new_with_source(ErrorCode::IoError,
"IO error in Tanker stream", e)`. The same expression appears inline in
`decrypt_stream` (`src/ctanker/cstream.rs`, lines 306-312). -/
def ioToError (e : ErrTree) : ErrTree :=
  .tankerErr .IoError "IO error in Tanker stream" (some e)

/-- State of the native `tanker_future` handle as observable through the C
API (`tanker_future_is_ready`, `tanker_future_has_error`,
`tanker_future_get_voidptr`, `tanker_future_get_error`). -/
inductive CNative (T : Type) where
  | notReady
  | readyValue (v : T)
  | readyError (code : ErrorCode) (msg : String)

/-- Value of `tanker_future_is_ready`. -/
def isReady {T : Type} : CNative T → Bool
  | .notReady => false
  | .readyValue _ => true
  | .readyError _ _ => true

/-- Embeds `CFuture::get_error` (`src/ctanker/cfuture.rs`, lines 121-134):
when the future has an error, build `Error::new(code, msg)` from the C
error's code and message. -/
def getError {T : Type} : CNative T → Option ErrTree
  | .readyError c m => some (.tankerErr c m none)
  | _ => none

/-- Embeds `CFuture::get_result` (`src/ctanker/cfuture.rs`, lines 111-119):
when `tanker_future_is_ready`, convert the void pointer payload. It is only
ever called after `get_error` returned `None`, so the error case never
reaches the conversion and is modelled as `none`. -/
def getResult {T : Type} : CNative T → Option T
  | .readyValue v => some v
  | _ => none

/-- State of the `futures::channel::oneshot` channel shared between
`CFuture::poll` (receiver) and `waker_callback` (sender). `complete` is set
once the sender has sent and been dropped; `data` holds the not yet
consumed payload. -/
structure OneshotState (T : Type) where
  complete : Bool
  data : Option (Except ErrTree T)

/-- Result of `oneshot::Receiver::try_recv`: a payload, nothing yet, or the
`Canceled` error (returned once `complete` is set but the payload was
already taken or never sent). -/
inductive TryRecvRes (T : Type) where
  | msg (r : Except ErrTree T)
  | empty
  | canceled

/-- Embeds `oneshot::Receiver::try_recv` of the futures crate: when
`complete` is set, take the data if present, otherwise report `Canceled`;
when not complete, report that nothing was received yet. -/
def tryRecv {T : Type} (c : OneshotState T) : TryRecvRes T × OneshotState T :=
  if c.complete then
    match c.data with
    | some d => (.msg d, { c with data := none })
    | none => (.canceled, c)
  else (.empty, c)

/-- State of one `CFuture<T>` operation bridge (`src/ctanker/cfuture.rs`):
the native future, the optional oneshot receiver (`self.receiver`), the
shared waker slot (`self.waker`, wakers modelled by numeric ids), and a
ghost counter of `tanker_future_then` registrations. -/
structure CFutureState (T : Type) where
  native : CNative T
  receiver : Option (OneshotState T)
  waker : Option Nat
  thenCalls : Nat

/-- Embeds `CFuture::new`: no receiver, no waker, and no callback
registered yet. -/
def mkCFuture {T : Type} (native : CNative T) : CFutureState T :=
  { native := native, receiver := none, waker := none, thenCalls := 0 }

/-- Outcome of one `CFuture::poll`: `Poll::Ready`, `Poll::Pending`, or a
panic (the `.unwrap()` on `try_recv` failing). -/
inductive CPoll (T : Type) where
  | ready (r : Except ErrTree T)
  | pending
  | panicked

/-- The payload `waker_callback` sends on the oneshot channel
(`src/ctanker/cfuture.rs`, lines 142-151): the error if the future has one,
else the converted result; `none` models the `unreachable!` branch where
the callback runs on a future that is not ready. -/
def sendResult {T : Type} (native : CNative T) : Option (Except ErrTree T) :=
  match getError native with
  | some e => some (.error e)
  | none =>
    match getResult native with
    | some v => some (.ok v)
    | none => none

/-- Embeds `CFuture::poll` (`src/ctanker/cfuture.rs`, lines 175-226).
Step 1 unconditionally stores the caller's waker; step 2 takes the
already-received path through the oneshot receiver when one exists
(`try_recv().unwrap()`); step 3 is the fast path querying the native future
directly; step 4 creates the oneshot channel and registers `waker_callback`
via `tanker_future_then` (counted in `thenCalls`). -/
def pollCF {T : Type} (s : CFutureState T) (w : Nat) : CPoll T × CFutureState T :=
  let s1 : CFutureState T := { s with waker := some w }
  match s1.receiver with
  | some ch =>
    match tryRecv ch with
    | (.msg r, ch1) => (.ready r, { s1 with receiver := some ch1 })
    | (.empty, ch1) => (.pending, { s1 with receiver := some ch1 })
    | (.canceled, ch1) => (.panicked, { s1 with receiver := some ch1 })
  | none =>
    match getError s1.native with
    | some e => (.ready (.error e), s1)
    | none =>
      match getResult s1.native with
      | some v => (.ready (.ok v), s1)
      | none =>
        (.pending, { s1 with receiver := some { complete := false, data := none },
                             thenCalls := s1.thenCalls + 1 })

/-- Embeds `CFuture::waker_callback` (`src/ctanker/cfuture.rs`,
lines 136-163): when a callback was registered (a receiver exists) and the
future is ready, send the result on the oneshot channel, then take and wake
the stored waker. Returns the new state and the woken waker id. When no
callback was registered, or on the `unreachable!` branch, the state is
returned unchanged. -/
def wakerCallback {T : Type} (s : CFutureState T) : CFutureState T × Option Nat :=
  match s.receiver, sendResult s.native with
  | some _, some r =>
    ({ s with receiver := some { complete := true, data := some r }, waker := none }, s.waker)
  | _, _ => (s, none)

/-- Events in the life of one operation bridge: a poll by the consumer
task, completion of the native future on the engine thread (a value or an
error), and the engine invoking the registered completion callback. -/
inductive CFEvent (T : Type) where
  | pollEv (w : Nat)
  | completeValue (v : T)
  | completeError (code : ErrorCode) (msg : String)
  | callbackEv

/-- One event step on a bridge state. Completion only affects a future that
is not yet ready (the engine completes a future once); the callback step
applies `wakerCallback`. -/
def stepCF {T : Type} (s : CFutureState T) : CFEvent T → CFutureState T
  | .pollEv w => (pollCF s w).2
  | .completeValue v =>
    match s.native with
    | .notReady => { s with native := .readyValue v }
    | _ => s
  | .completeError c m =>
    match s.native with
    | .notReady => { s with native := .readyError c m }
    | _ => s
  | .callbackEv => (wakerCallback s).1

/-- Run a sequence of events on a bridge state. -/
def runEvents {T : Type} (s : CFutureState T) (es : List (CFEvent T)) : CFutureState T :=
  es.foldl stepCF s

/-- A bridge state together with the ghost memory state of the native
payload buffer behind the result. The `FromRawFuturePointer` conversions
for `String` and `Option<String>` (`src/ctanker/cfuture.rs`, lines 51-78)
copy the C string out and then `free_buffer` it, while the conversions for
`()`, raw pointers, `u32` and `usize` (lines 17-49) leave engine-owned
memory alone; `bufferFreed` records whether a previous extraction already
freed the buffer. -/
structure CFutureMem (T : Type) where
  st : CFutureState T
  bufferFreed : Bool

/-- Embeds `CFuture::new` with a not-yet-extracted payload buffer. -/
def mkCFutureMem {T : Type} (native : CNative T) : CFutureMem T :=
  { st := mkCFuture native, bufferFreed := false }

/-- Outcome of one `CFuture::poll` under the memory-aware model: as
`CPoll`, plus the undefined behaviour of re-running a buffer-freeing
conversion on an already-freed buffer (use-after-free / double free). -/
inductive CPollMem (T : Type) where
  | ready (r : Except ErrTree T)
  | pending
  | panicked
  | useAfterFree

/-- Embeds `CFuture::poll` exactly as `pollCF`, additionally tracking the
`free_buffer` side effect of the payload conversion. `frees` says whether
the payload type's `FromRawFuturePointer::from` frees the engine buffer
after copying (true for `String` and `Option<String>`). A fast-path value
extraction re-run after the buffer was freed is undefined behaviour
(`useAfterFree`); a successful extraction marks the buffer freed when
`frees` is set. `get_error` only copies the message and frees nothing, so
the error fast path stays repeatable. -/
def pollCFMem {T : Type} (frees : Bool) (s : CFutureMem T) (w : Nat) :
    CPollMem T × CFutureMem T :=
  let s1 : CFutureMem T := { s with st := { s.st with waker := some w } }
  match s1.st.receiver with
  | some ch =>
    match tryRecv ch with
    | (.msg r, ch1) => (.ready r, { s1 with st := { s1.st with receiver := some ch1 } })
    | (.empty, ch1) => (.pending, { s1 with st := { s1.st with receiver := some ch1 } })
    | (.canceled, ch1) => (.panicked, { s1 with st := { s1.st with receiver := some ch1 } })
  | none =>
    match getError s1.st.native with
    | some e => (.ready (.error e), s1)
    | none =>
      match getResult s1.st.native with
      | some v =>
        if frees && s1.bufferFreed then (.useAfterFree, s1)
        else (.ready (.ok v), { s1 with bufferFreed := s1.bufferFreed || frees })
      | none =>
        (.pending,
          { s1 with
              st :=
                { s1.st with
                    receiver := some { complete := false, data := none }
                    thenCalls := s1.st.thenCalls + 1 } })

/-- Outcomes of a sequence of polls under the memory-aware model. -/
def pollOutcomesMem {T : Type} (frees : Bool) (s : CFutureMem T) :
    List Nat → List (CPollMem T)
  | [] => []
  | w :: ws => (pollCFMem frees s w).1 :: pollOutcomesMem frees (pollCFMem frees s w).2 ws

/-- State after a sequence of polls under the memory-aware model. -/
def runPollsMem {T : Type} (frees : Bool) (s : CFutureMem T) (ws : List Nat) : CFutureMem T :=
  ws.foldl (fun s2 w => (pollCFMem frees s2 w).2) s

/-- A `ReadOperation` (`src/ctanker/cstream.rs`, lines 39-44): the engine's
buffer and completion sentinel, identified here by `reqId`, together with
the requested `size`. -/
structure ReadOperationM where
  reqId : Nat
  size : Nat
  deriving DecidableEq, Repr

/-- State of one `TankerStream` (`src/ctanker/cstream.rs`, lines 54-62):
the internal chunk buffer contents (after `set_len`), the in-progress
`read_operation`, the capacity-one channel content and closed flag, whether
a `tanker_stream_read` future is in flight, the waker slot, and a ghost log
of `tanker_stream_read_operation_finish(op, n)` calls. -/
structure TankerStreamState where
  buffer : List Nat
  readOperation : Option ReadOperationM
  chan : Option ReadOperationM
  chanClosed : Bool
  tankerReadInFlight : Bool
  waker : Option Nat
  finishLog : List (Nat × Nat)
  deriving DecidableEq, Repr

/-- Outcome of polling the user-supplied source stream inside `poll_read`:
pending, `n` bytes read, or an io error. -/
inductive UserPoll where
  | pending
  | ok (n : Nat)
  | err (e : ErrTree)

/-- Outcome of polling the `tanker_stream_read` chunk future inside
`poll_read`: pending, a chunk (the bytes the engine wrote into the internal
buffer, of length `bytes_read`), or an engine error (code and message). -/
inductive RefillPoll where
  | pending
  | ok (chunk : List Nat)
  | err (code : ErrorCode) (msg : String)
  deriving DecidableEq, Repr

/-- Environment of one `poll_read` call: what the user stream and the chunk
future would report if polled during this call. -/
structure PollReadEnv where
  userRead : UserPoll
  refill : RefillPoll

/-- Outcome of one `TankerStream::poll_read` call: `Ready(Ok)` with the
bytes copied into the caller's buffer, `Ready(Err)`, `Pending`, or a panic
(the closed-channel `panic!` or the `debug_assert` on overlapping
`ReadOperation`s). -/
inductive ReadPoll where
  | ready (bytes : List Nat)
  | readyErr (e : ErrTree)
  | pending
  | panicked

/-- The final drain step of `poll_read` (`src/ctanker/cstream.rs`,
lines 240-243): copy `min(buffer.len(), caller buffer len)` bytes out of
the front of the internal buffer and return that count. -/
def drainBuffer (s : TankerStreamState) (callerLen : Nat) : ReadPoll × TankerStreamState :=
  let toRead := min s.buffer.length callerLen
  (.ready (s.buffer.take toRead), { s with buffer := s.buffer.drop toRead })

/-- The refill part of `poll_read` (`src/ctanker/cstream.rs`,
lines 219-237): start a `tanker_stream_read` on the internal buffer if none
is in flight, then wait for it; on error, convert the engine error for the
io interface (the `?` uses `From<Error> for futures::io::Error`); on
success, set the buffer to the chunk and fall through to the drain. -/
def pollReadRefill (s : TankerStreamState) (callerLen : Nat) (env : PollReadEnv) :
    ReadPoll × TankerStreamState :=
  let s1 := { s with tankerReadInFlight := true }
  match env.refill with
  | .pending => (.pending, s1)
  | .err c m => (.readyErr (errorToIo (.tankerErr c m none)), s1)
  | .ok chunk => drainBuffer { s1 with tankerReadInFlight := false, buffer := chunk } callerLen

/-- The `ReadOperation` servicing part of `poll_read`
(`src/ctanker/cstream.rs`, lines 199-217): if a `read_operation` is in
progress, poll the user stream into the engine's buffer; on success signal
`tanker_stream_read_operation_finish` with the byte count (logged) and
clear the operation; errors and pending short-circuit out. -/
def pollReadService (s : TankerStreamState) (callerLen : Nat) (env : PollReadEnv) :
    ReadPoll × TankerStreamState :=
  match s.readOperation with
  | some op =>
    match env.userRead with
    | .pending => (.pending, s)
    | .err e => (.readyErr e, s)
    | .ok n =>
      pollReadRefill
        { s with readOperation := none, finishLog := s.finishLog ++ [(op.reqId, n)] }
        callerLen env
  | none => pollReadRefill s callerLen env

/-- Embeds `TankerStream::poll_read` (`src/ctanker/cstream.rs`,
lines 172-244). When the internal buffer is empty: store the waker, take a
pending `ReadOperation` off the channel (panicking if the channel is closed,
and `debug_assert`ing that no operation is already in progress), service it,
refill the buffer from the engine, and drain; when the buffer is not empty,
none of that runs and the call only drains the buffer. -/
def pollRead (s0 : TankerStreamState) (callerLen : Nat) (w : Nat) (env : PollReadEnv) :
    ReadPoll × TankerStreamState :=
  if s0.buffer = [] then
    let s1 := { s0 with waker := some w }
    match s1.chan with
    | some op =>
      if s1.readOperation.isSome then
        (.panicked, s1)
      else
        pollReadService { s1 with chan := none, readOperation := some op } callerLen env
    | none =>
      if s1.chanClosed then (.panicked, s1)
      else pollReadService s1 callerLen env
  else
    drainBuffer s0 callerLen

/-- An environment in which neither the user stream nor the chunk future
makes progress: successive `poll_read` calls then only drain the internal
buffer. -/
def quietEnv : PollReadEnv := { userRead := .pending, refill := .pending }

/-- Successive `poll_read` calls with the given caller buffer sizes in the
quiet environment, collecting the returned byte slices; stops at the first
call that does not return `Ready(Ok)`. -/
def drainRun : TankerStreamState → List Nat → List (List Nat) × TankerStreamState
  | s, [] => ([], s)
  | s, n :: rest =>
    match pollRead s n 0 quietEnv with
    | (.ready bytes, s1) =>
      let (rs, s2) := drainRun s1 rest
      (bytes :: rs, s2)
    | (_, s1) => ([], s1)

/-- One event seen by the bootstrap select loop of `process_stream_until`:
either a `ReadOperation` arrives on the channel (with the outcome the user
stream will give for it), or the `open` future resolves. -/
inductive BootEvent (T : Type) where
  | request (req : ReadOperationM) (userRead : Except ErrTree Nat)
  | openDone (r : Except ErrTree T)

/-- Embeds `process_stream_until` (`src/ctanker/cstream.rs`, lines 107-139)
over a linearised list of select outcomes. A `request` is serviced by
reading from the user stream — on success the operation is finished with
the byte count (logged) and the loop continues, on a user io error the
function returns that error — and when the `open` future resolves the loop
exits with its value, or with its error converted by
`From<Error> for futures::io::Error`. Returns the finish log and the
function's result (`none` when the events ran out with the loop still
suspended). -/
def processStreamUntil {T : Type} :
    List (BootEvent T) → List (Nat × Nat) × Option (Except ErrTree T)
  | [] => ([], none)
  | .request req userRead :: rest =>
    match userRead with
    | .ok n =>
      let (log, out) := processStreamUntil rest
      ((req.reqId, n) :: log, out)
    | .error e => ([], some (.error e))
  | .openDone r :: _ =>
    match r with
    | .ok v => ([], some (.ok v))
    | .error e => ([], some (.error (errorToIo e)))

/-- The finish log that servicing a list of events should produce: one
entry per successfully serviced request, in order, with its byte count. -/
def requestLog {T : Type} : List (BootEvent T) → List (Nat × Nat)
  | [] => []
  | .request req (.ok n) :: rest => (req.reqId, n) :: requestLog rest
  | .request _ (.error _) :: rest => requestLog rest
  | .openDone _ :: rest => requestLog rest

/-- Whether an event is a read request whose user-stream read succeeds. -/
def isOkRequest {T : Type} : BootEvent T → Bool
  | .request _ (.ok _) => true
  | _ => false

/-- Result of `process_stream_until` when the open future resolves with
`r`: the value, or the error converted for the io interface. -/
def openOutcome {T : Type} : Except ErrTree T → Except ErrTree T
  | .ok v => .ok v
  | .error e => .error (errorToIo e)

/-- Embeds the error handling of `decrypt_stream` (`src/ctanker/cstream.rs`,
lines 289-318): run `process_stream_until` on the bootstrap events and wrap
any io error it returns with
`Error::new_with_source(ErrorCode::IoError, "IO error in Tanker stream", e)`
(the `map_err`). Returns `none` when the bootstrap has not finished. -/
def decryptStreamOutcome {T : Type} (events : List (BootEvent T)) :
    Option (Except ErrTree T) :=
  match processStreamUntil events with
  | (_, none) => none
  | (_, some (.ok h)) => some (.ok h)
  | (_, some (.error e)) => some (.error (ioToError e))

/-- Outcome of `TankerStream`'s `Drop` impl. -/
inductive DropOutcome where
  | closedOk
  | loggedError
  | panicked
  deriving DecidableEq, Repr

/-- Run of `impl Drop for TankerStream` (`src/ctanker/cstream.rs`,
lines 82-101): it always calls `tanker_stream_close` and blocks on the
resulting future (`closeRequested`); on a close error it panics when
`cfg!(debug_assertions)` is set and otherwise logs to stderr and
continues. -/
structure DropRun where
  closeRequested : Bool
  outcome : DropOutcome
  deriving DecidableEq, Repr

/-- Embeds the `Drop` impl of `TankerStream`, parameterised by the build
configuration (`debugAssertions`) and the result the engine gives for the
close future. -/
def dropTankerStream (debugAssertions : Bool) (closeResult : Except ErrTree Unit) : DropRun :=
  { closeRequested := true
    outcome :=
      match closeResult with
      | .ok _ => .closedOk
      | .error _ => if debugAssertions then .panicked else .loggedError }

/-! ## Operation-bridge lemmas -/

theorem pollCF_receiver_none_value {T : Type} (s : CFutureState T) (w : Nat) (v : T)
    (hr : s.receiver = none) (hn : s.native = .readyValue v) :
    pollCF s w = (.ready (.ok v), { s with waker := some w }) := by
  simp [pollCF, hr, hn, getError, getResult]

theorem pollCF_receiver_none_error {T : Type} (s : CFutureState T) (w : Nat)
    (c : ErrorCode) (m : String) (hr : s.receiver = none) (hn : s.native = .readyError c m) :
    pollCF s w = (.ready (.error (.tankerErr c m none)), { s with waker := some w }) := by
  simp [pollCF, hr, hn, getError]

theorem pollCF_receiver_none_notReady {T : Type} (s : CFutureState T) (w : Nat)
    (hr : s.receiver = none) (hn : s.native = .notReady) :
    pollCF s w =
      (.pending,
        { s with
            waker := some w
            receiver := some { complete := false, data := none }
            thenCalls := s.thenCalls + 1 }) := by
  simp [pollCF, hr, hn, getError, getResult]

theorem pollCF_receiver_pending {T : Type} (s : CFutureState T) (w : Nat)
    (ch : OneshotState T) (hr : s.receiver = some ch) (hc : ch.complete = false) :
    pollCF s w = (.pending, { s with waker := some w, receiver := some ch }) := by
  simp [pollCF, hr, tryRecv, hc]

theorem pollCF_receiver_msg {T : Type} (s : CFutureState T) (w : Nat)
    (ch : OneshotState T) (r : Except ErrTree T)
    (hr : s.receiver = some ch) (hc : ch.complete = true) (hd : ch.data = some r) :
    pollCF s w =
      (.ready r,
        { s with
            waker := some w
            receiver := some { ch with data := none } }) := by
  simp [pollCF, hr, tryRecv, hc, hd]

theorem pollCF_receiver_consumed {T : Type} (s : CFutureState T) (w : Nat)
    (ch : OneshotState T)
    (hr : s.receiver = some ch) (hc : ch.complete = true) (hd : ch.data = none) :
    pollCF s w = (.panicked, { s with waker := some w, receiver := some ch }) := by
  simp [pollCF, hr, tryRecv, hc, hd]

theorem pollCF_waker {T : Type} (s : CFutureState T) (w : Nat) :
    (pollCF s w).2.waker = some w := by
  cases hr : s.receiver with
  | none =>
    cases hn : s.native with
    | notReady => rw [pollCF_receiver_none_notReady s w hr hn]
    | readyValue v => rw [pollCF_receiver_none_value s w v hr hn]
    | readyError c m => rw [pollCF_receiver_none_error s w c m hr hn]
  | some ch =>
    cases hc : ch.complete with
    | false => rw [pollCF_receiver_pending s w ch hr hc]
    | true =>
      cases hd : ch.data with
      | none => rw [pollCF_receiver_consumed s w ch hr hc hd]
      | some r => rw [pollCF_receiver_msg s w ch r hr hc hd]

theorem pollCF_native {T : Type} (s : CFutureState T) (w : Nat) :
    (pollCF s w).2.native = s.native := by
  cases hr : s.receiver with
  | none =>
    cases hn : s.native with
    | notReady => rw [pollCF_receiver_none_notReady s w hr hn]; exact hn
    | readyValue v => rw [pollCF_receiver_none_value s w v hr hn]; exact hn
    | readyError c m => rw [pollCF_receiver_none_error s w c m hr hn]; exact hn
  | some ch =>
    cases hc : ch.complete with
    | false => rw [pollCF_receiver_pending s w ch hr hc]
    | true =>
      cases hd : ch.data with
      | none => rw [pollCF_receiver_consumed s w ch hr hc hd]
      | some r => rw [pollCF_receiver_msg s w ch r hr hc hd]

/-- Invariant of a bridge whose native future was ready at construction and
that never registered a callback: no receiver, unchanged native state, no
`tanker_future_then` call. -/
def FastInv {T : Type} (native0 : CNative T) (s : CFutureState T) : Prop :=
  s.receiver = none ∧ s.native = native0 ∧ s.thenCalls = 0

theorem fastInv_step {T : Type} (native0 : CNative T) (hready : isReady native0 = true)
    (s : CFutureState T) (e : CFEvent T) (h : FastInv native0 s) :
    FastInv native0 (stepCF s e) := by
  obtain ⟨h1, h2, h3⟩ := h
  cases e with
  | pollEv w =>
    show FastInv native0 (pollCF s w).2
    cases native0 with
    | notReady => simp [isReady] at hready
    | readyValue v =>
      rw [pollCF_receiver_none_value s w v h1 h2]
      exact ⟨h1, h2, h3⟩
    | readyError c m =>
      rw [pollCF_receiver_none_error s w c m h1 h2]
      exact ⟨h1, h2, h3⟩
  | completeValue v =>
    cases native0 with
    | notReady => simp [isReady] at hready
    | readyValue v0 => simp [stepCF, h2]; exact ⟨h1, h2, h3⟩
    | readyError c m => simp [stepCF, h2]; exact ⟨h1, h2, h3⟩
  | completeError c m =>
    cases native0 with
    | notReady => simp [isReady] at hready
    | readyValue v0 => simp [stepCF, h2]; exact ⟨h1, h2, h3⟩
    | readyError c0 m0 => simp [stepCF, h2]; exact ⟨h1, h2, h3⟩
  | callbackEv =>
    show FastInv native0 (wakerCallback s).1
    simp [wakerCallback, h1]
    exact ⟨h1, h2, h3⟩

theorem fastInv_run {T : Type} (native0 : CNative T) (hready : isReady native0 = true)
    (s : CFutureState T) (es : List (CFEvent T)) (h : FastInv native0 s) :
    FastInv native0 (runEvents s es) := by
  induction es generalizing s with
  | nil => exact h
  | cons e es ih =>
    show FastInv native0 (runEvents (stepCF s e) es)
    exact ih (stepCF s e) (fastInv_step native0 hready s e h)

/-! ## Claim C10: total conversion of raw engine error codes -/

/-- C10: conversion of a raw numeric engine error code into `ErrorCode` is
total: 0 through 14 map to `NoError` through `UpgradeRequired`, and every
other value maps to `UnknownError`, so extracting an engine error never
fails on an out-of-range code. -/
theorem claim10_code_conversion :
    (∀ n : Nat, 14 < n → errorCodeFromU32 n = .UnknownError)
    ∧ errorCodeFromU32 0 = .NoError
    ∧ errorCodeFromU32 1 = .InvalidArgument
    ∧ errorCodeFromU32 2 = .InternalError
    ∧ errorCodeFromU32 3 = .NetworkError
    ∧ errorCodeFromU32 4 = .PreconditionFailed
    ∧ errorCodeFromU32 5 = .OperationCanceled
    ∧ errorCodeFromU32 6 = .DecryptionFailed
    ∧ errorCodeFromU32 7 = .GroupTooBig
    ∧ errorCodeFromU32 8 = .InvalidVerification
    ∧ errorCodeFromU32 9 = .TooManyAttempts
    ∧ errorCodeFromU32 10 = .ExpiredVerification
    ∧ errorCodeFromU32 11 = .IoError
    ∧ errorCodeFromU32 12 = .DeviceRevoked
    ∧ errorCodeFromU32 13 = .Conflict
    ∧ errorCodeFromU32 14 = .UpgradeRequired := by
  refine ⟨?_, rfl, rfl, rfl, rfl, rfl, rfl, rfl, rfl, rfl, rfl, rfl, rfl, rfl, rfl, rfl⟩
  intro n hn
  obtain ⟨m, rfl⟩ : ∃ m, n = m + 15 := ⟨n - 15, by omega⟩
  rfl

/-- C10 witness: the out-of-range code 999 (and the `u32::MAX` default
discriminant itself) maps to `UnknownError`. -/
theorem claim10_code_conversion_witness :
    errorCodeFromU32 999 = .UnknownError ∧ errorCodeFromU32 4294967295 = .UnknownError :=
  ⟨claim10_code_conversion.1 999 (by omega), claim10_code_conversion.1 4294967295 (by omega)⟩

/-! ## Claim C9: stream disposal -/

/-- C9 counterexample: with `debug_assertions` set, a close failure during
`Drop` makes the drop handler panic, so the failure is not swallowed in
every build configuration. -/
theorem claim9_counterexample :
    (dropTankerStream true (.error (.tankerErr .InternalError "close failed" none))).outcome
      = .panicked
    ∧ DropOutcome.panicked ≠ DropOutcome.loggedError
    ∧ DropOutcome.panicked ≠ DropOutcome.closedOk :=
  ⟨rfl, by decide, by decide⟩

/-- C9 amended: dropping a stream bridge always synchronously requests the
engine close and awaits the result; a close failure is swallowed and
logged in release builds, but in debug builds (`debug_assertions`) it
panics instead. -/
theorem claim9_amended_drop (dbg : Bool) (e : ErrTree) (r : Except ErrTree Unit) :
    (dropTankerStream dbg r).closeRequested = true
    ∧ (dropTankerStream dbg (.ok ())).outcome = .closedOk
    ∧ (dropTankerStream false (.error e)).outcome = .loggedError
    ∧ (dropTankerStream true (.error e)).outcome = .panicked :=
  ⟨rfl, rfl, rfl, rfl⟩

/-! ## Claim C7: error surfacing and distinguishability -/

/-- C7 counterexample: an engine error (`DecryptionFailed`) failing the
`open` future of `decrypt_stream` is converted to an io error and then
wrapped by the `map_err`, so the caller observes top-level code `IoError` —
exactly the code observed for a user-source failure — not the engine's own
code, and the two cases are not distinguishable by the observed code. -/
theorem claim7_counterexample :
    decryptStreamOutcome (T := Nat)
        [.openDone (.error (.tankerErr .DecryptionFailed "decryption failed" none))]
      = some (.error (.tankerErr .IoError "IO error in Tanker stream"
          (some (.ioError .Other
            (some (.tankerErr .DecryptionFailed "decryption failed" none))))))
    ∧ decryptStreamOutcome (T := Nat)
        [.request ⟨0, 8⟩ (.error (.ioError .PermissionDenied none))]
      = some (.error (.tankerErr .IoError "IO error in Tanker stream"
          (some (.ioError .PermissionDenied none))))
    ∧ ErrorCode.DecryptionFailed ≠ ErrorCode.IoError :=
  ⟨rfl, rfl, by decide⟩

/-- C7 amended: a user-source failure during the decrypt-stream open
surfaces as `ErrorCode::IoError` with the original failure as its direct
source; an engine failure of the open operation is converted by
`From<Error> for io::Error` — which preserves the engine's code and message
verbatim in the inner error — and is then also wrapped as
`ErrorCode::IoError`, so both cases show `IoError` as the observed
top-level code and are distinguishable only through the source chain. -/
theorem claim7_amended_error_surfacing {T : Type} (kind : ErrorKind) (inner : Option ErrTree)
    (c : ErrorCode) (m : String) (req : ReadOperationM) :
    decryptStreamOutcome (T := T) [.request req (.error (.ioError kind inner))]
      = some (.error (.tankerErr .IoError "IO error in Tanker stream"
          (some (.ioError kind inner))))
    ∧ decryptStreamOutcome (T := T) [.openDone (.error (.tankerErr c m none))]
      = some (.error (.tankerErr .IoError "IO error in Tanker stream"
          (some (.ioError (kindOfCode c) (some (.tankerErr c m none))))))
    ∧ errorToIo (.tankerErr c m none) = .ioError (kindOfCode c) (some (.tankerErr c m none))
    ∧ topCode (.tankerErr .IoError "IO error in Tanker stream" (some (.ioError kind inner)))
        = topCode (.tankerErr .IoError "IO error in Tanker stream"
            (some (.ioError (kindOfCode c) (some (.tankerErr c m none))))) :=
  ⟨rfl, rfl, rfl, rfl⟩

/-! ## Claims C1, C2, C5, C6: operation bridge -/

/-- C1: for an operation already complete when the bridge is constructed,
the first poll returns `Ready` with the operation's result (value or
error), and over any sequence of later events no completion callback is
ever registered (`tanker_future_then` is never called, `thenCalls`
stays 0). -/
theorem claim1_fast_path {T : Type} (v : T) (c : ErrorCode) (m : String) (w : Nat)
    (es : List (CFEvent T)) :
    (pollCF (mkCFuture (.readyValue v)) w).1 = .ready (.ok v)
    ∧ (pollCF (mkCFuture (T := T) (.readyError c m)) w).1
        = .ready (.error (.tankerErr c m none))
    ∧ (runEvents (mkCFuture (.readyValue v)) es).thenCalls = 0
    ∧ (runEvents (mkCFuture (T := T) (.readyError c m)) es).thenCalls = 0 := by
  refine ⟨?_, ?_, ?_, ?_⟩
  · rw [pollCF_receiver_none_value _ _ v rfl rfl]
  · rw [pollCF_receiver_none_error _ _ c m rfl rfl]
  · exact (fastInv_run (.readyValue v) rfl _ es ⟨rfl, rfl, rfl⟩).2.2
  · exact (fastInv_run (.readyError c m) rfl _ es ⟨rfl, rfl, rfl⟩).2.2

/-- C2 counterexample: a bridge resolved through the completion channel
(first poll registers, the engine completes and the callback sends, the
second poll returns `Ready(Ok 7)`) panics on the very next poll, because
`try_recv` on the consumed oneshot receiver yields `Err(Canceled)` and the
code unwraps it — refuting "every subsequent poll returns the same result
... and never panics". -/
theorem claim2_counterexample :
    (pollCF (wakerCallback (stepCF (pollCF (mkCFuture (T := Nat) .notReady) 0).2
        (.completeValue 7))).1 1).1 = CPoll.ready (.ok 7)
    ∧ (pollCF (pollCF (wakerCallback (stepCF (pollCF (mkCFuture (T := Nat) .notReady) 0).2
        (.completeValue 7))).1 1).2 2).1 = CPoll.panicked :=
  ⟨rfl, rfl⟩

theorem pollCFMem_fast_error {T : Type} (frees : Bool) (s : CFutureMem T) (w : Nat)
    (c : ErrorCode) (m : String)
    (hr : s.st.receiver = none) (hn : s.st.native = .readyError c m) :
    pollCFMem frees s w =
      (.ready (.error (.tankerErr c m none)),
       { s with st := { s.st with waker := some w } }) := by
  simp [pollCFMem, hr, hn, getError]

theorem pollCFMem_fast_value_fresh {T : Type} (frees : Bool) (s : CFutureMem T) (w : Nat)
    (v : T) (hr : s.st.receiver = none) (hn : s.st.native = .readyValue v)
    (hf : (frees && s.bufferFreed) = false) :
    pollCFMem frees s w =
      (.ready (.ok v),
       { s with
           st := { s.st with waker := some w }
           bufferFreed := s.bufferFreed || frees }) := by
  simp [pollCFMem, hr, hn, getError, getResult, hf]

theorem pollCFMem_fast_value_freed {T : Type} (s : CFutureMem T) (w : Nat) (v : T)
    (hr : s.st.receiver = none) (hn : s.st.native = .readyValue v)
    (hb : s.bufferFreed = true) :
    pollCFMem true s w =
      (.useAfterFree, { s with st := { s.st with waker := some w } }) := by
  simp [pollCFMem, hr, hn, getError, getResult, hb]

theorem pollCFMem_receiver_pending {T : Type} (frees : Bool) (s : CFutureMem T) (w : Nat)
    (ch : OneshotState T) (hr : s.st.receiver = some ch) (hc : ch.complete = false) :
    pollCFMem frees s w =
      (.pending, { s with st := { s.st with waker := some w, receiver := some ch } }) := by
  simp [pollCFMem, hr, tryRecv, hc]

theorem pollCFMem_receiver_msg {T : Type} (frees : Bool) (s : CFutureMem T) (w : Nat)
    (ch : OneshotState T) (r : Except ErrTree T)
    (hr : s.st.receiver = some ch) (hc : ch.complete = true) (hd : ch.data = some r) :
    pollCFMem frees s w =
      (.ready r,
       { s with
           st :=
             { s.st with
                 waker := some w
                 receiver := some { ch with data := none } } }) := by
  simp [pollCFMem, hr, tryRecv, hc, hd]

theorem pollCFMem_receiver_consumed {T : Type} (frees : Bool) (s : CFutureMem T) (w : Nat)
    (ch : OneshotState T)
    (hr : s.st.receiver = some ch) (hc : ch.complete = true) (hd : ch.data = none) :
    pollCFMem frees s w =
      (.panicked, { s with st := { s.st with waker := some w, receiver := some ch } }) := by
  simp [pollCFMem, hr, tryRecv, hc, hd]

/-- Invariant of a memory-aware bridge over a ready native future that has
never registered a callback. -/
def FastInvMem {T : Type} (native0 : CNative T) (s : CFutureMem T) : Prop :=
  s.st.receiver = none ∧ s.st.native = native0 ∧ s.st.thenCalls = 0

theorem fastInvMem_poll {T : Type} (frees : Bool) (native0 : CNative T)
    (hready : isReady native0 = true) (s : CFutureMem T) (w : Nat)
    (h : FastInvMem native0 s) : FastInvMem native0 (pollCFMem frees s w).2 := by
  obtain ⟨h1, h2, h3⟩ := h
  cases native0 with
  | notReady => simp [isReady] at hready
  | readyValue v =>
    cases hf : frees && s.bufferFreed with
    | false =>
      rw [pollCFMem_fast_value_fresh frees s w v h1 h2 hf]
      exact ⟨h1, h2, h3⟩
    | true =>
      obtain ⟨hfr, hb⟩ : frees = true ∧ s.bufferFreed = true := by simpa using hf
      subst hfr
      rw [pollCFMem_fast_value_freed s w v h1 h2 hb]
      exact ⟨h1, h2, h3⟩
  | readyError c m =>
    rw [pollCFMem_fast_error frees s w c m h1 h2]
    exact ⟨h1, h2, h3⟩

theorem fastInvMem_run {T : Type} (frees : Bool) (native0 : CNative T)
    (hready : isReady native0 = true) (s : CFutureMem T) (ws : List Nat)
    (h : FastInvMem native0 s) : FastInvMem native0 (runPollsMem frees s ws) := by
  induction ws generalizing s with
  | nil => exact h
  | cons w ws ih =>
    show FastInvMem native0 (runPollsMem frees (pollCFMem frees s w).2 ws)
    exact ih (pollCFMem frees s w).2 (fastInvMem_poll frees native0 hready s w h)

theorem pollOutcomesMem_noFree_value {T : Type} (v : T) (s : CFutureMem T)
    (h : FastInvMem (.readyValue v) s) (ws : List Nat) :
    ∀ o ∈ pollOutcomesMem false s ws, o = CPollMem.ready (.ok v) := by
  induction ws generalizing s with
  | nil => intro o ho; simp [pollOutcomesMem] at ho
  | cons w ws ih =>
    intro o ho
    rw [pollOutcomesMem] at ho
    rcases List.mem_cons.mp ho with h1 | h1
    · rw [h1, pollCFMem_fast_value_fresh false s w v h.1 h.2.1 (by simp)]
    · exact ih (pollCFMem false s w).2 (fastInvMem_poll false (.readyValue v) rfl s w h) o h1

theorem pollOutcomesMem_error {T : Type} (frees : Bool) (c : ErrorCode) (m : String)
    (s : CFutureMem T) (h : FastInvMem (T := T) (.readyError c m) s) (ws : List Nat) :
    ∀ o ∈ pollOutcomesMem frees s ws, o = CPollMem.ready (.error (.tankerErr c m none)) := by
  induction ws generalizing s with
  | nil => intro o ho; simp [pollOutcomesMem] at ho
  | cons w ws ih =>
    intro o ho
    rw [pollOutcomesMem] at ho
    rcases List.mem_cons.mp ho with h1 | h1
    · rw [h1, pollCFMem_fast_error frees s w c m h.1 h.2.1]
    · exact ih (pollCFMem frees s w).2 (fastInvMem_poll frees (.readyError c m) rfl s w h) o h1

theorem pollCFMem_after_receiver_ready {T : Type} (frees : Bool) (s : CFutureMem T)
    (ch : OneshotState T) (w w2 : Nat) (r : Except ErrTree T)
    (hr : s.st.receiver = some ch) (hready : (pollCFMem frees s w).1 = .ready r) :
    (pollCFMem frees (pollCFMem frees s w).2 w2).1 = .panicked
    ∧ (pollCFMem frees (pollCFMem frees s w).2 w2).2.st.thenCalls = s.st.thenCalls := by
  cases hc : ch.complete with
  | false =>
    rw [pollCFMem_receiver_pending frees s w ch hr hc] at hready
    exact absurd hready (by simp)
  | true =>
    cases hd : ch.data with
    | none =>
      rw [pollCFMem_receiver_consumed frees s w ch hr hc hd] at hready
      exact absurd hready (by simp)
    | some d =>
      rw [pollCFMem_receiver_msg frees s w ch d hr hc hd]
      rw [pollCFMem_receiver_consumed frees _ w2 { ch with data := none } rfl hc rfl]
      exact ⟨rfl, rfl⟩

/-- C2 corrected: after a bridge resolves through the completion channel,
the poll following the resolving poll panics on the consumed oneshot
receiver and registers nothing. After a fast-path resolution no callback
is ever registered, and subsequent polls repeat the same result for error
results and for payload conversions that leave engine memory alone
(`()`, raw pointers, integers); but for the buffer-freeing conversions
(`String`, `Option<String>`) the second fast-path poll re-runs the
conversion on the already-freed buffer — a use-after-free, not a repeated
same-value read. -/
theorem claim2_amended_resolution {T : Type} :
    (∀ (v : T) (ws : List Nat),
        ∀ o ∈ pollOutcomesMem false (mkCFutureMem (.readyValue v)) ws,
        o = CPollMem.ready (.ok v))
    ∧ (∀ (frees : Bool) (c : ErrorCode) (m : String) (ws : List Nat),
        ∀ o ∈ pollOutcomesMem frees (mkCFutureMem (T := T) (.readyError c m)) ws,
        o = CPollMem.ready (.error (.tankerErr c m none)))
    ∧ (∀ (v : T) (w1 w2 : Nat),
        (pollCFMem true (mkCFutureMem (.readyValue v)) w1).1 = CPollMem.ready (.ok v)
        ∧ (pollCFMem true (pollCFMem true (mkCFutureMem (.readyValue v)) w1).2 w2).1
            = CPollMem.useAfterFree)
    ∧ (∀ (frees : Bool) (native : CNative T) (ws : List Nat), isReady native = true →
        (runPollsMem frees (mkCFutureMem native) ws).st.thenCalls = 0)
    ∧ (∀ (frees : Bool) (s : CFutureMem T) (ch : OneshotState T) (w w2 : Nat)
          (r : Except ErrTree T),
        s.st.receiver = some ch → (pollCFMem frees s w).1 = .ready r →
        (pollCFMem frees (pollCFMem frees s w).2 w2).1 = .panicked
        ∧ (pollCFMem frees (pollCFMem frees s w).2 w2).2.st.thenCalls = s.st.thenCalls) := by
  refine ⟨?_, ?_, ?_, ?_, ?_⟩
  · exact fun v ws => pollOutcomesMem_noFree_value v _ ⟨rfl, rfl, rfl⟩ ws
  · exact fun frees c m ws => pollOutcomesMem_error frees c m _ ⟨rfl, rfl, rfl⟩ ws
  · intro v w1 w2
    have h1 := pollCFMem_fast_value_fresh true (mkCFutureMem (.readyValue v)) w1 v rfl rfl
      (by simp [mkCFutureMem])
    constructor
    · rw [h1]
    · rw [h1]
      rw [pollCFMem_fast_value_freed _ w2 v rfl rfl (by simp)]
  · exact fun frees native ws hready =>
      (fastInvMem_run frees native hready _ ws ⟨rfl, rfl, rfl⟩).2.2
  · exact fun frees s ch w w2 r hr hready =>
      pollCFMem_after_receiver_ready frees s ch w w2 r hr hready

/-- C2 witness: the amended claim applied to a concrete channel-resolved
bridge (the poll after the resolving poll panics and registers nothing)
and to a concrete buffer-freeing fast-path bridge (the second poll is a
use-after-free, and two polls register nothing). -/
theorem claim2_amended_resolution_witness :
    ((pollCFMem false (pollCFMem false
        (⟨⟨.readyValue 7, some ⟨true, some (.ok 7)⟩, none, 1⟩, false⟩ : CFutureMem Nat)
        1).2 2).1 = CPollMem.panicked)
    ∧ ((pollCFMem false (pollCFMem false
        (⟨⟨.readyValue 7, some ⟨true, some (.ok 7)⟩, none, 1⟩, false⟩ : CFutureMem Nat)
        1).2 2).2.st.thenCalls = 1)
    ∧ (runPollsMem true (mkCFutureMem (T := Nat) (.readyValue 3)) [0, 1]).st.thenCalls = 0 := by
  have h := (claim2_amended_resolution (T := Nat)).2.2.2.2 false
    ⟨⟨.readyValue 7, some ⟨true, some (.ok 7)⟩, none, 1⟩, false⟩
    ⟨true, some (.ok 7)⟩ 1 2 (.ok 7) rfl rfl
  have h2 := (claim2_amended_resolution (T := Nat)).2.2.2.1 true (.readyValue 3) [0, 1] rfl
  exact ⟨h.1, h.2, h2⟩

/-- C5: every poll unconditionally overwrites the shared waker slot with
the caller's current waker before checking the channel or readiness; over a
poll sequence the slot holds the last poll's waker; and when the completion
callback runs after a poll, it wakes exactly that poll's waker. -/
theorem claim5_waker_overwrite {T : Type} :
    (∀ (s : CFutureState T) (w : Nat), (pollCF s w).2.waker = some w)
    ∧ (∀ (s : CFutureState T) (ws : List Nat) (w : Nat),
        (runEvents s (ws.map CFEvent.pollEv ++ [CFEvent.pollEv w])).waker = some w)
    ∧ (∀ (s : CFutureState T) (w : Nat) (ch : OneshotState T) (r : Except ErrTree T),
        (pollCF s w).2.receiver = some ch → sendResult s.native = some r →
        (wakerCallback (pollCF s w).2).2 = some w) := by
  refine ⟨fun s w => pollCF_waker s w, ?_, ?_⟩
  · intro s ws w
    rw [runEvents, List.foldl_append]
    exact pollCF_waker _ w
  · intro s w ch r h1 h2
    have hn : sendResult (pollCF s w).2.native = some r := by rw [pollCF_native]; exact h2
    unfold wakerCallback
    rw [h1, hn]
    exact pollCF_waker s w

/-- C5 witness: on a registered bridge whose native future is ready, the
callback running right after a poll with waker 9 wakes waker 9. -/
theorem claim5_waker_overwrite_witness :
    (wakerCallback (pollCF (⟨.readyValue 5, some ⟨false, none⟩, none, 1⟩ : CFutureState Nat)
        9).2).2 = some 9 :=
  (claim5_waker_overwrite (T := Nat)).2.2
    ⟨.readyValue 5, some ⟨false, none⟩, none, 1⟩ 9 ⟨false, none⟩ (.ok 5) rfl rfl

/-- Ghost-count invariant: the number of `tanker_future_then` calls is 1
exactly when the oneshot receiver exists, 0 otherwise. -/
def RegInv {T : Type} (s : CFutureState T) : Prop :=
  s.thenCalls = if s.receiver.isSome then 1 else 0

theorem regInv_step {T : Type} (s : CFutureState T) (e : CFEvent T) (h : RegInv s) :
    RegInv (stepCF s e) := by
  cases e with
  | pollEv w =>
    show RegInv (pollCF s w).2
    cases hr : s.receiver with
    | none =>
      rw [RegInv, hr] at h
      cases hn : s.native with
      | notReady =>
        rw [pollCF_receiver_none_notReady s w hr hn]
        simp [RegInv, h]
      | readyValue v =>
        rw [pollCF_receiver_none_value s w v hr hn]
        simp [RegInv, hr, h]
      | readyError c m =>
        rw [pollCF_receiver_none_error s w c m hr hn]
        simp [RegInv, hr, h]
    | some ch =>
      rw [RegInv, hr] at h
      cases hc : ch.complete with
      | false =>
        rw [pollCF_receiver_pending s w ch hr hc]
        simp [RegInv, h]
      | true =>
        cases hd : ch.data with
        | none =>
          rw [pollCF_receiver_consumed s w ch hr hc hd]
          simp [RegInv, h]
        | some r =>
          rw [pollCF_receiver_msg s w ch r hr hc hd]
          simp [RegInv, h]
  | completeValue v =>
    show RegInv (match s.native with
      | .notReady => { s with native := .readyValue v }
      | _ => s)
    cases s.native <;> simpa [RegInv] using h
  | completeError c m =>
    show RegInv (match s.native with
      | .notReady => { s with native := .readyError c m }
      | _ => s)
    cases s.native <;> simpa [RegInv] using h
  | callbackEv =>
    show RegInv (wakerCallback s).1
    rw [wakerCallback]
    cases hr : s.receiver with
    | none => simpa using h
    | some ch =>
      rw [RegInv, hr] at h
      cases hsr : sendResult s.native with
      | none => simpa [RegInv, hr] using h
      | some r => simpa [RegInv, hr] using h

theorem regInv_run {T : Type} (s : CFutureState T) (es : List (CFEvent T)) (h : RegInv s) :
    RegInv (runEvents s es) := by
  induction es generalizing s with
  | nil => exact h
  | cons e es ih => exact ih (stepCF s e) (regInv_step s e h)

/-- C6: over the whole lifetime of one operation bridge — any sequence of
polls, engine completions and callback invocations, in any order —
`tanker_future_then` is called at most once. -/
theorem claim6_single_registration {T : Type} (native : CNative T) (es : List (CFEvent T)) :
    (runEvents (mkCFuture native) es).thenCalls ≤ 1 := by
  have h : RegInv (runEvents (mkCFuture native) es) :=
    regInv_run (mkCFuture native) es (by simp [RegInv, mkCFuture])
  rw [RegInv] at h
  split at h <;> omega

/-! ## Claims C3, C8: stream multiplexer drain and end-of-stream -/

theorem pollRead_drain (s : TankerStreamState) (n w : Nat) (env : PollReadEnv)
    (h : s.buffer ≠ []) :
    pollRead s n w env =
      (.ready (s.buffer.take (min s.buffer.length n)),
       { s with buffer := s.buffer.drop (min s.buffer.length n) }) := by
  unfold pollRead
  rw [if_neg h]
  rfl

theorem pollRead_quiet_empty (s : TankerStreamState) (n w : Nat) (hbuf : s.buffer = []) :
    ((pollRead s n w quietEnv).1 = .pending ∨ (pollRead s n w quietEnv).1 = .panicked)
    ∧ (pollRead s n w quietEnv).2.buffer = s.buffer := by
  unfold pollRead
  rw [if_pos hbuf]
  cases hc : s.chan with
  | some op =>
    cases hro : s.readOperation with
    | some op2 => simp [hro]
    | none => simp [pollReadService, quietEnv, hro]
  | none =>
    cases hcl : s.chanClosed with
    | true => simp [hcl]
    | false =>
      cases hro : s.readOperation with
      | some op2 => simp [pollReadService, quietEnv, hcl, hro]
      | none => simp [pollReadService, pollReadRefill, quietEnv, hcl, hro]

theorem pollRead_quiet_ready (s : TankerStreamState) (n w : Nat) (bytes : List Nat)
    (s1 : TankerStreamState) (h : pollRead s n w quietEnv = (.ready bytes, s1)) :
    bytes = s.buffer.take (min s.buffer.length n)
    ∧ s1.buffer = s.buffer.drop (min s.buffer.length n) := by
  by_cases hbuf : s.buffer = []
  · rcases pollRead_quiet_empty s n w hbuf with ⟨hp | hp, _⟩ <;> rw [h] at hp <;> simp at hp
  · rw [pollRead_drain s n w quietEnv hbuf] at h
    injection h with h1 h2
    injection h1 with h1
    exact ⟨h1.symm, by rw [← h2]⟩

theorem pollRead_quiet_not_ready (s : TankerStreamState) (n w : Nat)
    (h : ∀ bytes, (pollRead s n w quietEnv).1 ≠ .ready bytes) :
    (pollRead s n w quietEnv).2.buffer = s.buffer := by
  by_cases hbuf : s.buffer = []
  · exact (pollRead_quiet_empty s n w hbuf).2
  · have hr : (pollRead s n w quietEnv).1 = .ready (s.buffer.take (min s.buffer.length n)) := by
      rw [pollRead_drain s n w quietEnv hbuf]
    exact absurd hr (h _)

theorem drainRun_join (s : TankerStreamState) (sizes : List Nat) :
    (drainRun s sizes).1.flatten ++ (drainRun s sizes).2.buffer = s.buffer := by
  induction sizes generalizing s with
  | nil => simp [drainRun]
  | cons n rest ih =>
    rw [drainRun]
    rcases h : pollRead s n 0 quietEnv with ⟨p, s1⟩
    cases p with
    | ready bytes =>
      obtain ⟨h1, h2⟩ := pollRead_quiet_ready s n 0 bytes s1 h
      simp only [List.flatten_cons, List.append_assoc]
      rw [ih s1, h2, h1, List.take_append_drop]
    | readyErr e =>
      have hb : s1.buffer = s.buffer := by
        have := pollRead_quiet_not_ready s n 0 (by rw [h]; intro bytes hc; exact absurd hc (by simp))
        rwa [h] at this
      simpa using hb
    | pending =>
      have hb : s1.buffer = s.buffer := by
        have := pollRead_quiet_not_ready s n 0 (by rw [h]; intro bytes hc; exact absurd hc (by simp))
        rwa [h] at this
      simpa using hb
    | panicked =>
      have hb : s1.buffer = s.buffer := by
        have := pollRead_quiet_not_ready s n 0 (by rw [h]; intro bytes hc; exact absurd hc (by simp))
        rwa [h] at this
      simpa using hb

theorem drainRun_le (s : TankerStreamState) (sizes : List Nat) :
    ∀ p ∈ (drainRun s sizes).1.zip sizes, p.1.length ≤ p.2 := by
  induction sizes generalizing s with
  | nil => simp [drainRun]
  | cons n rest ih =>
    rw [drainRun]
    rcases h : pollRead s n 0 quietEnv with ⟨p, s1⟩
    cases p with
    | ready bytes =>
      intro q hq
      simp only [List.zip_cons_cons] at hq
      rcases List.mem_cons.mp hq with rfl | hq
      · obtain ⟨h1, _⟩ := pollRead_quiet_ready s n 0 bytes s1 h
        simp only [h1, List.length_take]
        omega
      · exact ih s1 q hq
    | readyErr e => simp
    | pending => simp
    | panicked => simp

/-- C3: `poll_read` with a nonempty internal buffer copies exactly
`min(buffer length, caller length)` bytes off the front of the buffer and
keeps the rest; over any sequence of caller-chosen read sizes the
concatenation of the returned reads followed by the remaining buffer is
exactly the original buffered byte sequence, in order, with no loss or
duplication, and every read is at most its caller buffer length. -/
theorem claim3_buffer_drain (s : TankerStreamState) (sizes : List Nat) (n w : Nat)
    (env : PollReadEnv) :
    (s.buffer ≠ [] →
      pollRead s n w env =
        (.ready (s.buffer.take (min s.buffer.length n)),
         { s with buffer := s.buffer.drop (min s.buffer.length n) }))
    ∧ (drainRun s sizes).1.flatten ++ (drainRun s sizes).2.buffer = s.buffer
    ∧ ∀ p ∈ (drainRun s sizes).1.zip sizes, p.1.length ≤ p.2 :=
  ⟨fun h => pollRead_drain s n w env h, drainRun_join s sizes, drainRun_le s sizes⟩

/-- C3 witness: a five-byte buffer drained with caller sizes 2, 2, 2. -/
theorem claim3_buffer_drain_witness :
    pollRead (⟨[1, 2, 3, 4, 5], none, none, false, false, none, []⟩ : TankerStreamState)
        2 0 quietEnv =
      (.ready ([1, 2, 3, 4, 5].take (min 5 2)),
       { (⟨[1, 2, 3, 4, 5], none, none, false, false, none, []⟩ : TankerStreamState) with
           buffer := [1, 2, 3, 4, 5].drop (min 5 2) })
    ∧ (drainRun ⟨[1, 2, 3, 4, 5], none, none, false, false, none, []⟩ [2, 2, 2]).1.flatten
        ++ (drainRun ⟨[1, 2, 3, 4, 5], none, none, false, false, none, []⟩ [2, 2, 2]).2.buffer
        = [1, 2, 3, 4, 5]
    ∧ ∀ p ∈ (drainRun (⟨[1, 2, 3, 4, 5], none, none, false, false, none, []⟩ :
        TankerStreamState) [2, 2, 2]).1.zip [2, 2, 2], p.1.length ≤ p.2 := by
  have h := claim3_buffer_drain ⟨[1, 2, 3, 4, 5], none, none, false, false, none, []⟩
    [2, 2, 2] 2 0 quietEnv
  exact ⟨h.1 (by simp), h.2.1, h.2.2⟩

/-- Shape of any `poll_read` call that returns `Ready(Ok)`: either the
internal buffer was nonempty and the bytes are its front, or it was empty
and the bytes are the front of the chunk the engine's refill produced. -/
theorem pollRead_ready_shape (s : TankerStreamState) (n w : Nat) (env : PollReadEnv)
    (bytes : List Nat) (s1 : TankerStreamState)
    (h : pollRead s n w env = (.ready bytes, s1)) :
    (s.buffer ≠ [] ∧ bytes = s.buffer.take (min s.buffer.length n))
    ∨ (s.buffer = [] ∧ ∃ chunk, env.refill = .ok chunk
        ∧ bytes = chunk.take (min chunk.length n)) := by
  have refill_case :
      ∀ s2 : TankerStreamState, pollReadRefill s2 n env = (.ready bytes, s1) →
        ∃ chunk, env.refill = .ok chunk ∧ bytes = chunk.take (min chunk.length n) := by
    intro s2 h2
    unfold pollReadRefill at h2
    cases hrf : env.refill with
    | pending => rw [hrf] at h2; simp at h2
    | err c m => rw [hrf] at h2; simp at h2
    | ok chunk =>
      rw [hrf] at h2
      simp only [drainBuffer] at h2
      injection h2 with h2a h2b
      injection h2a with h2a
      exact ⟨chunk, rfl, h2a.symm⟩
  have service_case :
      ∀ s2 : TankerStreamState, pollReadService s2 n env = (.ready bytes, s1) →
        ∃ chunk, env.refill = .ok chunk ∧ bytes = chunk.take (min chunk.length n) := by
    intro s2 h2
    unfold pollReadService at h2
    cases hro : s2.readOperation with
    | some op =>
      rw [hro] at h2
      cases hu : env.userRead with
      | pending => rw [hu] at h2; simp at h2
      | err e => rw [hu] at h2; simp at h2
      | ok nn => rw [hu] at h2; exact refill_case _ h2
    | none =>
      rw [hro] at h2
      exact refill_case _ h2
  by_cases hbuf : s.buffer = []
  · right
    refine ⟨hbuf, ?_⟩
    rcases s with ⟨buf, ro, chan, cl, tif, wk, log⟩
    dsimp only at hbuf
    subst hbuf
    cases chan with
    | some op =>
      cases ro with
      | some op2 => simp [pollRead] at h
      | none =>
        simp [pollRead] at h
        exact service_case _ h
    | none =>
      cases cl with
      | true => simp [pollRead] at h
      | false =>
        simp [pollRead] at h
        exact service_case _ h
  · left
    rw [pollRead_drain s n w env hbuf] at h
    injection h with h1 h2
    injection h1 with h1
    exact ⟨hbuf, h1.symm⟩

/-- C8 counterexample: with a zero-length caller buffer, `poll_read`
returns `Ready(Ok(0))` (no bytes) even though the stream has not reached
its end — the internal buffer still holds data — refuting "for every
poll_read that returns Ready(Ok(0)), the stream has reached its end". -/
theorem claim8_counterexample :
    pollRead (⟨[5], none, none, false, false, none, []⟩ : TankerStreamState) 0 0 quietEnv
      = (.ready [], ⟨[5], none, none, false, false, none, []⟩)
    ∧ ([5] : List Nat) ≠ [] :=
  ⟨rfl, by simp⟩

/-- C8 corrected: for a poll with a nonzero caller buffer, `poll_read`
returns `Ready(Ok(0))` exactly when the internal buffer was empty and the
engine's refill produced the empty final chunk (end of stream); with data
available the returned count is positive. A zero-length caller buffer can
yield 0 without end of stream. -/
theorem claim8_amended_eos (s : TankerStreamState) (n w : Nat) (env : PollReadEnv)
    (bytes : List Nat) (s1 : TankerStreamState)
    (hn : 0 < n) (h : pollRead s n w env = (.ready bytes, s1)) :
    bytes = [] ↔ (s.buffer = [] ∧ env.refill = .ok []) := by
  rcases pollRead_ready_shape s n w env bytes s1 h with ⟨hne, hb⟩ | ⟨hemp, chunk, hrf, hb⟩
  · constructor
    · intro hbe
      rw [hb] at hbe
      rcases List.eq_nil_or_concat s.buffer with he | _
      · exact absurd he hne
      · have hlen : s.buffer.length ≠ 0 := by
          simpa [List.length_eq_zero] using hne
        have : (s.buffer.take (min s.buffer.length n)).length = 0 := by rw [hbe]; rfl
        rw [List.length_take] at this
        omega
    · intro hc
      exact absurd hc.1 hne
  · rw [hrf]
    constructor
    · intro hbe
      rw [hb] at hbe
      refine ⟨hemp, ?_⟩
      have : (chunk.take (min chunk.length n)).length = 0 := by rw [hbe]; rfl
      rw [List.length_take] at this
      have : chunk.length = 0 := by omega
      rw [List.length_eq_zero] at this
      rw [this]
    · rintro ⟨-, hco⟩
      have : chunk = [] := by injection hco
      rw [hb, this]
      simp

/-- C8 witness: the amended claim at a concrete empty-buffer state whose
refill yields the empty final chunk: the zero-byte read means end of
stream. -/
theorem claim8_amended_eos_witness :
    (([] : List Nat) = []
      ↔ ((⟨[], none, none, false, false, none, []⟩ : TankerStreamState).buffer = []
          ∧ (⟨UserPoll.pending, RefillPoll.ok []⟩ : PollReadEnv).refill = .ok [])) :=
  claim8_amended_eos ⟨[], none, none, false, false, none, []⟩ 4 0
    ⟨UserPoll.pending, RefillPoll.ok []⟩ [] ⟨[], none, none, false, false, some 0, []⟩
    (by omega) rfl

/-! ## Claim C4: bootstrap driver -/

/-- C4: while the open operation has not resolved, the bootstrap loop
services every arriving `ReadOperation` — finishing each exactly once, in
arrival order, with the byte count read from the user stream — and exits
with the open operation's result (handle or converted error) exactly when
it resolves, ignoring everything after; no request serviced before that
point is dropped or double-serviced. -/
theorem claim4_bootstrap {T : Type} (pre post : List (BootEvent T)) (r : Except ErrTree T)
    (hpre : pre.all isOkRequest = true) :
    processStreamUntil (pre ++ .openDone r :: post) = (requestLog pre, some (openOutcome r)) := by
  induction pre with
  | nil =>
    cases r with
    | ok v => simp [processStreamUntil, requestLog, openOutcome]
    | error e => simp [processStreamUntil, requestLog, openOutcome]
  | cons e pre ih =>
    rw [List.all_cons, Bool.and_eq_true] at hpre
    obtain ⟨he, hrest⟩ := hpre
    cases e with
    | request req ur =>
      cases ur with
      | ok nn =>
        rw [List.cons_append]
        simp only [processStreamUntil, requestLog, ih hrest]
      | error e2 => simp [isOkRequest] at he
    | openDone r2 => simp [isOkRequest] at he

/-- C4 witness: two requests of 32 and 7 bytes serviced before the open
operation resolves with handle 42; a request arriving after resolution is
not serviced. -/
theorem claim4_bootstrap_witness :
    processStreamUntil (T := Nat)
        ([.request ⟨1, 32⟩ (.ok 32), .request ⟨2, 16⟩ (.ok 7)]
          ++ .openDone (.ok 42) :: [.request ⟨3, 8⟩ (.ok 8)])
      = ([(1, 32), (2, 7)], some (.ok 42)) :=
  claim4_bootstrap [.request ⟨1, 32⟩ (.ok 32), .request ⟨2, 16⟩ (.ok 7)]
    [.request ⟨3, 8⟩ (.ok 8)] (.ok 42) rfl

end TankerSpec
